import Mathlib

/-!
Operator registry, input/output helpers and the event buffer.

A shallow embedding of `operator/registry.go`, `operator/helper/input.go`,
`operator/helper/output.go` and of the buffer exercised by
`operator/builtin/input/windows/buffer_test.go`, followed by the properties
proved about them.
-/

namespace operator

/-- A Go `map[string]V` allocated with `make`: a partial function on names,
read with the comma-ok form (`none` is "key absent"). -/
def GoMap (V : Type) : Type := String → Option V

/-- The map returned by `make(map[string]V)`. -/
def GoMap.empty {V : Type} : GoMap V := fun _ => none

/-- The assignment `m[k] = v`: inserts the key or overwrites its value. -/
def GoMap.set {V : Type} (m : GoMap V) (k : String) (v : V) : GoMap V :=
  fun k' => if k' = k then some v else m k'

/-- A value of Go type `func() Builder`: `none` is the nil function value,
`some b` a non-nil function. -/
abbrev Factory (β : Type) : Type := Option β

/-- The struct `Registry` of `registry.go`: the two maps `operators` and
`plugins`. -/
structure Registry (β : Type) where
  operators : GoMap (Factory β)
  plugins : GoMap (Factory β)

/-- The function `NewRegistry`: both maps freshly made. -/
def NewRegistry {β : Type} : Registry β :=
  { operators := GoMap.empty, plugins := GoMap.empty }

/-- The method `Registry.Register`: `r.operators[operatorType] = newBuilder`.
It has no result value. -/
def Registry.Register {β : Type} (r : Registry β) (operatorType : String)
    (newBuilder : Factory β) : Registry β :=
  { r with operators := r.operators.set operatorType newBuilder }

/-- The method `Registry.RegisterPlugin`: `r.plugins[pluginName] = newBuilder`.
It has no result value. -/
def Registry.RegisterPlugin {β : Type} (r : Registry β) (pluginName : String)
    (newBuilder : Factory β) : Registry β :=
  { r with plugins := r.plugins.set pluginName newBuilder }

/-- The method `Registry.Lookup`: the builtin map is read first, then the
plugin map; the last return is `nil, false`. -/
def Registry.Lookup {β : Type} (r : Registry β) (configType : String) :
    Factory β × Bool :=
  match r.operators configType with
  | some b => (b, true)
  | none =>
    match r.plugins configType with
    | some mb => (mb, true)
    | none => (none, false)

/-- One registration call made on a registry. -/
inductive Call (β : Type) where
  | register (name : String) (f : Factory β) : Call β
  | registerPlugin (name : String) (f : Factory β) : Call β

/-- Performs one registration call. -/
def Call.apply {β : Type} (r : Registry β) : Call β → Registry β
  | Call.register name f => r.Register name f
  | Call.registerPlugin name f => r.RegisterPlugin name f

/-- Performs a sequence of registration calls, first call first. -/
def applyCalls {β : Type} (r : Registry β) (calls : List (Call β)) : Registry β :=
  calls.foldl Call.apply r

/-- The registry obtained from `NewRegistry()` by a sequence of calls. -/
def run {β : Type} (calls : List (Call β)) : Registry β :=
  applyCalls NewRegistry calls

/-- The call `r.Lookup(configType)` with the registry behind the receiver
pointer at the return: the method reads the two maps and assigns nothing. -/
def Registry.LookupCall {β : Type} (r : Registry β) (configType : String) :
    (Factory β × Bool) × Registry β :=
  (r.Lookup configType, r)

end operator

namespace helper

/-- What `input.go` calls on an entry: `entry.New`, `Entry.Set`,
`Labeler.Label`, `Identifier.Identify` and `errors.Wrap`. These live in
packages `entry` and `errors` and in `labeler.go` and `identifier.go`, so they
are parameters. `E` is the state of the entry behind the pointer, `W` the rest
of the program state (clock, logs); each call returns its Go `error` (`none`
is nil), the entry as the call left it and the state as the call left it. -/
structure EntryOps (E F V Err W L I : Type) where
  New : W → E × W
  Set : E → F → V → W → Option Err × E × W
  Label : L → E → W → Option Err × E × W
  Identify : I → E → W → Option Err × E × W
  Wrap : Err → String → Err

/-- The struct `InputOperator` of `input.go`: the embedded `Labeler`,
`Identifier` and `WriterOperator`, and the field `WriteTo`. -/
structure InputOperator (L I Wr F : Type) where
  Labeler : L
  Identifier : I
  WriterOperator : Wr
  WriteTo : F

/-- The method `InputOperator.NewEntry`. The result is the returned pair
`(*entry.Entry, error)`, with `none` for nil, and the program state at the
return. -/
def InputOperator.NewEntry {E F V Err W L I Wr : Type}
    (ops : EntryOps E F V Err W L I) (i : InputOperator L I Wr F) (value : V)
    (w : W) : (Option E × Option Err) × W :=
  match ops.New w with
  | (entry, w) =>
    match ops.Set entry i.WriteTo value w with
    | (some err, _, w) => ((none, some (ops.Wrap err "add record to entry")), w)
    | (none, entry, w) =>
      match ops.Label i.Labeler entry w with
      | (some err, _, w) => ((none, some (ops.Wrap err "add labels to entry")), w)
      | (none, entry, w) =>
        match ops.Identify i.Identifier entry w with
        | (some err, _, w) =>
          ((none, some (ops.Wrap err "add resource keys to entry")), w)
        | (none, entry, w) => ((some entry, none), w)

/-- The method `InputOperator.CanProcess`. -/
def InputOperator.CanProcess {L I Wr F : Type} (_i : InputOperator L I Wr F) : Bool :=
  false

/-- What `Process` and `SetOutputs` call: the logger method `Errorw` promoted
from the embedded operator (package `zap`), which writes a message and
key-value pairs to the log state `W` and has no access path by which it writes
to the values it is given, and `errors.NewError(description, suggestion)`. -/
structure ErrorOps (Wr E Err W : Type) where
  Errorw : Wr → String → List (String × E) → W → W
  NewError : String → String → Err

/-- The method `InputOperator.Process`. The result is the returned `error`
(`none` is nil), the entry behind the pointer at the return and the log state
at the return. -/
def InputOperator.Process {L I Wr F E Err W Ctx : Type}
    (ops : ErrorOps Wr E Err W) (i : InputOperator L I Wr F) (_ctx : Ctx)
    (entry : E) (w : W) : Option Err × E × W :=
  let w := ops.Errorw i.WriterOperator
    "Operator received an entry, but can not process" [("entry", entry)] w
  (some (ops.NewError "Operator can not process logs."
    "Ensure that operator is not configured to receive logs from other operators"),
   entry, w)

/-- The struct `InputConfig` of `input.go`. -/
structure InputConfig (LC IC WC F : Type) where
  LabelerConfig : LC
  IdentifierConfig : IC
  WriterConfig : WC
  WriteTo : F

/-- What `InputConfig.Build` calls: the three sub-builds
`WriterConfig.Build(context)`, `LabelerConfig.Build()` and
`IdentifierConfig.Build()`, the promoted method `ID()` of the embedded writer
configuration, and `errors.WithDetails`. Each sub-build returns its value, its
Go `error` and the program state as it left it. -/
structure BuildOps (LC IC WC L I Wr Err Ctx W : Type) where
  WriterBuild : WC → Ctx → W → (Wr × Option Err) × W
  LabelerBuild : LC → W → (L × Option Err) × W
  IdentifierBuild : IC → W → (I × Option Err) × W
  ID : WC → String
  WithDetails : Err → String → String → Err

/-- The composite literal `InputOperator{}`: every field at its zero value. -/
def InputOperator.zero {L I Wr F : Type} [Inhabited L] [Inhabited I] [Inhabited Wr]
    [Inhabited F] : InputOperator L I Wr F :=
  { Labeler := default, Identifier := default, WriterOperator := default,
    WriteTo := default }

/-- The method `InputConfig.Build`. The result is the returned pair
`(InputOperator, error)` and the program state at the return. -/
def InputConfig.Build {LC IC WC L I Wr F Err Ctx W : Type}
    [Inhabited L] [Inhabited I] [Inhabited Wr] [Inhabited F]
    (ops : BuildOps LC IC WC L I Wr Err Ctx W) (c : InputConfig LC IC WC F)
    (context : Ctx) (w : W) : (InputOperator L I Wr F × Option Err) × W :=
  match ops.WriterBuild c.WriterConfig context w with
  | ((_, some err), w) =>
    ((InputOperator.zero, some (ops.WithDetails err "operator_id" (ops.ID c.WriterConfig))), w)
  | ((writerOperator, none), w) =>
    match ops.LabelerBuild c.LabelerConfig w with
    | ((_, some err), w) =>
      ((InputOperator.zero,
        some (ops.WithDetails err "operator_id" (ops.ID c.WriterConfig))), w)
    | ((labeler, none), w) =>
      match ops.IdentifierBuild c.IdentifierConfig w with
      | ((_, some err), w) =>
        ((InputOperator.zero,
          some (ops.WithDetails err "operator_id" (ops.ID c.WriterConfig))), w)
      | ((identifier, none), w) =>
        (({ Labeler := labeler, Identifier := identifier,
            WriterOperator := writerOperator, WriteTo := c.WriteTo }, none), w)

/-- The struct `OutputOperator` of `output.go`: the embedded `BasicOperator`. -/
structure OutputOperator (B : Type) where
  BasicOperator : B

/-- The method `OutputOperator.CanProcess`. -/
def OutputOperator.CanProcess {B : Type} (_o : OutputOperator B) : Bool := true

/-- The method `OutputOperator.CanOutput`. -/
def OutputOperator.CanOutput {B : Type} (_o : OutputOperator B) : Bool := false

/-- The method `OutputOperator.Outputs`: the literal `[]operator.Operator{}`. -/
def OutputOperator.Outputs {B : Type} (Op : Type) (_o : OutputOperator B) : List Op := []

/-- The method `OutputOperator.SetOutputs`. The result is the returned `error`
(`none` is nil) and the operator behind the receiver pointer at the return. -/
def OutputOperator.SetOutputs {B Op Err : Type} (NewError : String → String → Err)
    (o : OutputOperator B) (_operators : List Op) : Option Err × OutputOperator B :=
  (some (NewError "Operator can not output, but is attempting to set an output."
    "This is an unexpected internal error. Please submit a bug/issue."), o)

/-- The operator left by a sequence of `SetOutputs` calls, first call first. -/
def OutputOperator.afterSetOutputs {B Op Err : Type} (NewError : String → String → Err)
    (o : OutputOperator B) (calls : List (List Op)) : OutputOperator B :=
  calls.foldl (fun o operators => (o.SetOutputs NewError operators).2) o

/-- A sample set of entry operations: the entry is the list of writes made to
it, the program state the list of calls made; `Set` fails on an empty field,
`Label` and `Identify` fail when their component is `false`. -/
def sampleEntryOps :
    EntryOps (List String) String String String (List String) Bool Bool where
  New := fun w => ([], w ++ ["New"])
  Set := fun e f v w =>
    (if f = "" then some "empty field" else none, e ++ [f ++ "=" ++ v], w ++ ["Set"])
  Label := fun l e w =>
    (if l then none else some "bad label", e ++ ["labels"], w ++ ["Label"])
  Identify := fun i e w =>
    (if i then none else some "bad resource", e ++ ["resource"], w ++ ["Identify"])
  Wrap := fun err context => context ++ ": " ++ err

/-- The error of a sample sub-build: it fails with the given description when
its configuration is zero. -/
def sampleBuildError (description : String) (config : Nat) :
    Option (String × List (String × String)) :=
  match config with
  | 0 => some (description, [])
  | _ + 1 => none

/-- A sample set of sub-builds: the built parts are numbers, the program state
the list of sub-builds attempted; a sub-build fails when its configuration is
zero. -/
def sampleBuildOps :
    BuildOps Nat Nat (String × Nat) Nat Nat Nat (String × List (String × String)) Unit
      (List String) where
  WriterBuild := fun (c : String × Nat) (_ : Unit) (w : List String) =>
    ((c.2, sampleBuildError "no outputs" c.2), w ++ ["writer"])
  LabelerBuild := fun (c : Nat) (w : List String) =>
    ((c, sampleBuildError "bad label expression" c), w ++ ["labeler"])
  IdentifierBuild := fun (c : Nat) (w : List String) =>
    ((c, sampleBuildError "bad resource expression" c), w ++ ["identifier"])
  ID := fun (c : String × Nat) => c.1
  WithDetails := fun (err : String × List (String × String)) (k v : String) =>
    (err.1, err.2 ++ [(k, v)])

/-- A sample logger and error constructor: the log state is the list of
messages written, an error is the pair of its description and suggestion. -/
def sampleErrorOps : ErrorOps Unit String (String × String) (List String) where
  Errorw := fun (_ : Unit) (msg : String) (_ : List (String × String))
    (w : List String) => w ++ [msg]
  NewError := fun (description suggestion : String) => (description, suggestion)

/-- Modelled from the spec: a `ConfigError`, raised at build time, has a text
and "always carries the operator ID as structured detail". -/
structure ConfigError where
  text : String
  operatorID : String
  deriving DecidableEq, Repr

/-- The method `Error()` of an error: its text. -/
def ConfigError.Error (e : ConfigError) : String := e.text

/-- Modelled from the spec: the error `ConfigError(InvalidOnError)`. Its text
is the one `TestCSVParserBuildFailure` looks for in `err.Error()`. -/
def InvalidOnError (operatorID : String) : ConfigError :=
  { text := "invalid `on_error` field", operatorID := operatorID }

/-- Modelled from the spec: the configuration fields of a parser that the
build reads here, `id` and `on_error` (`helper/parser.go` is absent); an unset
`on_error` is `none`. -/
structure ParserConfig where
  OperatorID : String
  OnError : Option String
  deriving DecidableEq, Repr

/-- Modelled from the spec: the `on_error` policy has "exactly three modes":
unset, "send" and "drop". -/
def validOnError : Option String → Bool
  | none => true
  | some s => s == "send" || s == "drop"

/-- Modelled from the spec: `Build` of a parser configuration
(`helper/parser.go`, absent). "Any other configured string fails Build with
ConfigError(InvalidOnError)"; with a valid `on_error` the result is the one of
the remaining validation and construction, the argument `rest`. -/
def ParserConfig.Build {Op : Type} (c : ParserConfig) (rest : Except ConfigError Op) :
    Except ConfigError Op :=
  if validOnError c.OnError then rest else Except.error (InvalidOnError c.OperatorID)

/-- The test `strings.Contains(text, fragment)`. -/
def Contains (text fragment : String) : Prop :=
  List.IsInfix fragment.data text.data

end helper

namespace windows

/-- Modelled from the spec: the `DecodeError` with which `ReadBytes` and
`ReadString` of `buffer.go` (absent from the sources) fail "on malformed or
truncated sequences". -/
inductive DecodeError where
  | truncated : DecodeError
  | malformed : DecodeError
  deriving DecidableEq, Repr

/-- Modelled from the spec: the struct `Buffer` of `buffer.go` (absent from the
sources). The test reads and writes its field `buffer`, a byte slice; a byte
is a number below 256. -/
structure Buffer where
  buffer : List Nat
  deriving DecidableEq, Repr

/-- Modelled from the spec: `NewBuffer()` of `buffer.go` (absent) "allocates a
default capacity", zero-filled as Go allocates. The constant
`defaultBufferSize` is declared in the absent file and is a parameter. -/
def NewBuffer (defaultBufferSize : Nat) : Buffer :=
  { buffer := List.replicate defaultBufferSize 0 }

/-- Groups UTF-16LE bytes into 16-bit code units, low byte first; a single
trailing byte is a truncated unit. -/
def utf16Units : List Nat → Except DecodeError (List Nat)
  | [] => Except.ok []
  | [_] => Except.error DecodeError.truncated
  | lo :: hi :: rest =>
    match utf16Units rest with
    | Except.ok us => Except.ok ((lo + 256 * hi) :: us)
    | Except.error e => Except.error e

/-- Drops one leading byte-order mark U+FEFF, when there is one. -/
def stripBOM : List Nat → List Nat
  | [] => []
  | u :: rest => if u = 0xFEFF then rest else u :: rest

/-- Decodes UTF-16 code units to code points. The first argument is the high
surrogate read and not yet paired, if any. A high surrogate at the end is a
truncated sequence; a low surrogate without a high one, or a high one not
followed by a low one, is malformed. -/
def decodeUnits : Option Nat → List Nat → Except DecodeError (List Nat)
  | none, [] => Except.ok []
  | some _, [] => Except.error DecodeError.truncated
  | none, u :: rest =>
    if 0xD800 ≤ u ∧ u < 0xDC00 then decodeUnits (some u) rest
    else if 0xDC00 ≤ u ∧ u < 0xE000 then Except.error DecodeError.malformed
    else
      match decodeUnits none rest with
      | Except.ok cs => Except.ok (u :: cs)
      | Except.error e => Except.error e
  | some h, u :: rest =>
    if 0xDC00 ≤ u ∧ u < 0xE000 then
      match decodeUnits none rest with
      | Except.ok cs => Except.ok ((0x10000 + (h - 0xD800) * 0x400 + (u - 0xDC00)) :: cs)
      | Except.error e => Except.error e
    else Except.error DecodeError.malformed

/-- Modelled from the spec: the decoding done by `ReadBytes` and `ReadString`
of `buffer.go` (absent), which "interpret bytes as UTF-16LE text with an
optional byte-order mark" and "fail with DecodeError on malformed or truncated
sequences". The result is the list of code points. -/
def decodeUTF16LE (bytes : List Nat) : Except DecodeError (List Nat) :=
  match utf16Units bytes with
  | Except.ok us => decodeUnits none (stripBOM us)
  | Except.error e => Except.error e

/-- The UTF-8 bytes of one code point. -/
def utf8EncodeCodePoint (c : Nat) : List Nat :=
  if c < 0x80 then [c]
  else if c < 0x800 then [0xC0 + c / 0x40, 0x80 + c % 0x40]
  else if c < 0x10000 then [0xE0 + c / 0x1000, 0x80 + c / 0x40 % 0x40, 0x80 + c % 0x40]
  else [0xF0 + c / 0x40000, 0x80 + c / 0x1000 % 0x40, 0x80 + c / 0x40 % 0x40,
    0x80 + c % 0x40]

/-- The UTF-8 bytes of a text: the Go value `[]byte(T)`. -/
def utf8Bytes (T : String) : List Nat :=
  T.data.flatMap (fun c => utf8EncodeCodePoint c.toNat)

/-- Modelled from the spec: `Buffer.ReadBytes(offset)` of `buffer.go` (absent)
decodes bytes `[0, offset)` of the storage "to UTF-8 bytes". -/
def Buffer.ReadBytes (b : Buffer) (offset : Nat) : Except DecodeError (List Nat) :=
  match decodeUTF16LE (b.buffer.take offset) with
  | Except.ok cs => Except.ok (cs.flatMap utf8EncodeCodePoint)
  | Except.error e => Except.error e

/-- Modelled from the spec: `Buffer.ReadString(offset)` of `buffer.go` (absent)
decodes bytes `[0, offset)` of the storage "to text". -/
def Buffer.ReadString (b : Buffer) (offset : Nat) : Except DecodeError String :=
  match decodeUTF16LE (b.buffer.take offset) with
  | Except.ok cs => Except.ok (String.mk (cs.map Char.ofNat))
  | Except.error e => Except.error e

/-- The UTF-16 code units of one code point: itself below U+10000, a surrogate
pair from there on. -/
def utf16EncodeCodePoint (c : Nat) : List Nat :=
  if c < 0x10000 then [c]
  else [0xD800 + (c - 0x10000) / 0x400, 0xDC00 + (c - 0x10000) % 0x400]

/-- The two bytes of a code unit, low byte first. -/
def unitBytesLE (u : Nat) : List Nat := [u % 256, u / 256]

/-- The encoder the tests use,
`unicode.UTF16(unicode.LittleEndian, unicode.UseBOM).NewEncoder()` of package
`golang.org/x/text`, on a text: the byte-order mark `FF FE`, then the code
units of every character, low byte first. -/
def encodeUTF16LEWithBOM (T : String) : List Nat :=
  [0xFF, 0xFE] ++
    T.data.flatMap (fun c => (utf16EncodeCodePoint c.toNat).flatMap unitBytesLE)

/-- The loop `for i, b := range utf16 { buffer.buffer[i] = b }` of the tests,
from index `i` on; `none` is the run-time panic of an index out of range. -/
def storeBytes : List Nat → Nat → List Nat → Option (List Nat)
  | buf, _, [] => some buf
  | buf, i, b :: rest =>
    if i < buf.length then storeBytes (buf.set i b) (i + 1) rest else none

/-- The conversion `uint32(n)`. -/
def toUint32 (n : Nat) : Nat := n % 2 ^ 32

/-- The body of `TestBufferReadBytes` of `buffer_test.go` for a text `T` (the
test has "test"): the value of `buffer.ReadBytes(offset)`, or `none` when the
copy loop panics. -/
def TestBufferReadBytes (defaultBufferSize : Nat) (T : String) :
    Option (Except DecodeError (List Nat)) :=
  let utf16 := encodeUTF16LEWithBOM T
  match storeBytes (NewBuffer defaultBufferSize).buffer 0 utf16 with
  | none => none
  | some stored =>
    let buffer : Buffer := { buffer := stored }
    let offset := toUint32 utf16.length
    some (buffer.ReadBytes offset)

/-- The body of `TestBufferReadString` of `buffer_test.go` for a text `T` (the
test has "test"): the value of `buffer.ReadString(offset)`, or `none` when the
copy loop panics. -/
def TestBufferReadString (defaultBufferSize : Nat) (T : String) :
    Option (Except DecodeError String) :=
  let utf16 := encodeUTF16LEWithBOM T
  match storeBytes (NewBuffer defaultBufferSize).buffer 0 utf16 with
  | none => none
  | some stored =>
    let buffer : Buffer := { buffer := stored }
    let offset := toUint32 utf16.length
    some (buffer.ReadString offset)

/-- Modelled from the spec: `Buffer.Size()` of `buffer.go` (absent) is the
size of the storage, "initially the full default capacity"; the tests compare
it with a `uint32`. -/
def Buffer.Size (b : Buffer) : Nat := toUint32 b.buffer.length

/-- Modelled from the spec: `Buffer.UpdateSize(n)` of `buffer.go` (absent)
"resizes the underlying storage to capacity n; prior content is preserved only
for the first min(old, n) bytes"; the bytes past the old content are zero. -/
def Buffer.UpdateSize (b : Buffer) (size : Nat) : Buffer :=
  { buffer := b.buffer.take size ++ List.replicate (size - b.buffer.length) 0 }

end windows

namespace operator

section RegistryLemmas

variable {β : Type}

theorem applyCalls_nil (r : Registry β) : applyCalls r [] = r := rfl

theorem applyCalls_cons (r : Registry β) (c : Call β) (cs : List (Call β)) :
    applyCalls r (c :: cs) = applyCalls (Call.apply r c) cs := rfl

theorem applyCalls_append (r : Registry β) (cs ds : List (Call β)) :
    applyCalls r (cs ++ ds) = applyCalls (applyCalls r cs) ds := by
  unfold applyCalls
  exact List.foldl_append _ _ _ _

/-- Calls that never register `x` as a builtin leave the builtin slot of `x`
as it was. -/
theorem operators_frame (x : String) (cs : List (Call β)) :
    ∀ r : Registry β, (∀ f, Call.register x f ∉ cs) →
      (applyCalls r cs).operators x = r.operators x := by
  induction cs with
  | nil => intro r _; rfl
  | cons c cs ih =>
    intro r h
    have htail : ∀ f, Call.register x f ∉ cs := fun f hf =>
      h f (List.mem_cons_of_mem _ hf)
    rw [applyCalls_cons, ih _ htail]
    cases c with
    | register name f =>
      have hne : x ≠ name := by
        intro e
        subst e
        exact h f (List.mem_cons_self _ _)
      simp [Call.apply, Registry.Register, GoMap.set, hne]
    | registerPlugin name f => rfl

/-- Calls that never register `x` as a plugin leave the plugin slot of `x`
as it was. -/
theorem plugins_frame (x : String) (cs : List (Call β)) :
    ∀ r : Registry β, (∀ f, Call.registerPlugin x f ∉ cs) →
      (applyCalls r cs).plugins x = r.plugins x := by
  induction cs with
  | nil => intro r _; rfl
  | cons c cs ih =>
    intro r h
    have htail : ∀ f, Call.registerPlugin x f ∉ cs := fun f hf =>
      h f (List.mem_cons_of_mem _ hf)
    rw [applyCalls_cons, ih _ htail]
    cases c with
    | register name f => rfl
    | registerPlugin name f =>
      have hne : x ≠ name := by
        intro e
        subst e
        exact h f (List.mem_cons_self _ _)
      simp [Call.apply, Registry.RegisterPlugin, GoMap.set, hne]

/-- The builtin slot of `x` is empty after the calls exactly when it was empty
before and no call registered `x` as a builtin. -/
theorem operators_none_iff (x : String) (cs : List (Call β)) :
    ∀ r : Registry β, (applyCalls r cs).operators x = none ↔
      (r.operators x = none ∧ ∀ f, Call.register x f ∉ cs) := by
  induction cs with
  | nil => intro r; simp [applyCalls_nil]
  | cons c cs ih =>
    intro r
    rw [applyCalls_cons, ih]
    cases c with
    | register name f =>
      by_cases hx : x = name
      · subst hx
        constructor
        · intro h
          simp [Call.apply, Registry.Register, GoMap.set] at h
        · intro h
          exact absurd (List.mem_cons_self _ _) (h.2 f)
      · have hx2 : ∀ g : Factory β, ¬ (x = name ∧ g = f) := fun g hg => hx hg.1
        simp [Call.apply, Registry.Register, GoMap.set, hx, hx2]
    | registerPlugin name f =>
      simp [Call.apply, Registry.RegisterPlugin]

/-- The plugin slot of `x` is empty after the calls exactly when it was empty
before and no call registered `x` as a plugin. -/
theorem plugins_none_iff (x : String) (cs : List (Call β)) :
    ∀ r : Registry β, (applyCalls r cs).plugins x = none ↔
      (r.plugins x = none ∧ ∀ f, Call.registerPlugin x f ∉ cs) := by
  induction cs with
  | nil => intro r; simp [applyCalls_nil]
  | cons c cs ih =>
    intro r
    rw [applyCalls_cons, ih]
    cases c with
    | register name f =>
      simp [Call.apply, Registry.Register]
    | registerPlugin name f =>
      by_cases hx : x = name
      · subst hx
        constructor
        · intro h
          simp [Call.apply, Registry.RegisterPlugin, GoMap.set] at h
        · intro h
          exact absurd (List.mem_cons_self _ _) (h.2 f)
      · have hx2 : ∀ g : Factory β, ¬ (x = name ∧ g = f) := fun g hg => hx hg.1
        simp [Call.apply, Registry.RegisterPlugin, GoMap.set, hx, hx2]

/-- `Lookup` answers `nil, false` exactly when both slots of the name are
empty. -/
theorem Lookup_eq_none_false_iff (r : Registry β) (x : String) :
    r.Lookup x = (none, false) ↔ (r.operators x = none ∧ r.plugins x = none) := by
  unfold Registry.Lookup
  cases ho : r.operators x with
  | some b => simp
  | none =>
    cases hp : r.plugins x with
    | some mb => simp
    | none => simp

end RegistryLemmas

end operator

namespace operator

/-- C1: builtin always wins. In any sequence of calls made on `NewRegistry()`,
if `Register(x, A)` is the last builtin registration of `x`, then `Lookup(x)`
returns `(A, true)`, whatever plugin registrations of `x` stand before or
after it; in particular `Register("x", A)` and `RegisterPlugin("x", B)` in
either order give `Lookup("x") = (A, true)`. -/
theorem C1_builtin_always_wins {β : Type} :
    (∀ (pre post : List (Call β)) (x : String) (A : Factory β),
      (∀ f, Call.register x f ∉ post) →
      (run (pre ++ Call.register x A :: post)).Lookup x = (A, true)) ∧
    (∀ A B : Factory β,
      ((NewRegistry.Register "x" A).RegisterPlugin "x" B).Lookup "x" = (A, true) ∧
      ((NewRegistry.RegisterPlugin "x" B).Register "x" A).Lookup "x" = (A, true)) := by
  refine ⟨?_, ?_⟩
  · intro pre post x A hpost
    have hop : (run (pre ++ Call.register x A :: post)).operators x = some A := by
      unfold run
      rw [applyCalls_append, applyCalls_cons, operators_frame x post _ hpost]
      simp [Call.apply, Registry.Register, GoMap.set]
    simp [Registry.Lookup, hop]
  · intro A B
    constructor <;>
      simp [Registry.Lookup, Registry.Register, Registry.RegisterPlugin, GoMap.set]

/-- Witness of C1: a plugin registration of "x" before and after the builtin
one, and an unrelated builtin registration after it. -/
theorem C1_builtin_always_wins_witness :
    (run [Call.registerPlugin "x" (some 7), Call.register "x" (some 1),
        Call.registerPlugin "x" (some 8), Call.register "y" (some 2)]).Lookup "x"
      = ((some 1 : Factory Nat), true) :=
  (@C1_builtin_always_wins Nat).1 [Call.registerPlugin "x" (some 7)]
    [Call.registerPlugin "x" (some 8), Call.register "y" (some 2)] "x" (some 1)
    (by intro f hf; simp at hf)

/-- C2: for a registry obtained from `NewRegistry()` by a sequence of calls,
`Lookup(x)` returns `(nil, false)` exactly when the sequence holds neither a
`Register(x, _)` nor a `RegisterPlugin(x, _)`; every `Lookup` on a fresh
registry returns `(nil, false)`. -/
theorem C2_lookup_not_found_iff_unregistered {β : Type} :
    (∀ (calls : List (Call β)) (x : String),
      (run calls).Lookup x = (none, false) ↔
        ((∀ f, Call.register x f ∉ calls) ∧ (∀ f, Call.registerPlugin x f ∉ calls))) ∧
    (∀ x : String, (NewRegistry : Registry β).Lookup x = (none, false)) := by
  refine ⟨?_, ?_⟩
  · intro calls x
    rw [Lookup_eq_none_false_iff]
    unfold run
    rw [operators_none_iff, plugins_none_iff]
    simp [NewRegistry, GoMap.empty]
  · intro x
    rfl

/-- C3: plugin fallback. In any sequence of calls made on `NewRegistry()` with
no `Register(x, _)`, if `RegisterPlugin(x, B)` is the last plugin registration
of `x`, then `Lookup(x)` returns `(B, true)`. -/
theorem C3_plugin_fallback {β : Type} (pre post : List (Call β)) (x : String)
    (B : Factory β)
    (hbuiltin : ∀ f, Call.register x f ∉ pre ++ Call.registerPlugin x B :: post)
    (hpost : ∀ f, Call.registerPlugin x f ∉ post) :
    (run (pre ++ Call.registerPlugin x B :: post)).Lookup x = (B, true) := by
  have hop : (run (pre ++ Call.registerPlugin x B :: post)).operators x = none := by
    unfold run
    rw [operators_none_iff]
    exact ⟨rfl, hbuiltin⟩
  have hpl : (run (pre ++ Call.registerPlugin x B :: post)).plugins x = some B := by
    unfold run
    rw [applyCalls_append, applyCalls_cons, plugins_frame x post _ hpost]
    simp [Call.apply, Registry.RegisterPlugin, GoMap.set]
  simp [Registry.Lookup, hop, hpl]

/-- Witness of C3: two plugin registrations of "x" among registrations of
another name. -/
theorem C3_plugin_fallback_witness :
    (run [Call.registerPlugin "x" (some 7), Call.register "y" (some 1),
        Call.registerPlugin "x" (some 8), Call.registerPlugin "y" (some 2)]).Lookup "x"
      = ((some 8 : Factory Nat), true) :=
  C3_plugin_fallback [Call.registerPlugin "x" (some 7), Call.register "y" (some 1)]
    [Call.registerPlugin "y" (some 2)] "x" (some 8)
    (by intro f hf; simp at hf) (by intro f hf; simp at hf)

/-- C4: registration is insert-or-overwrite, idempotent and last-writer-wins,
and a duplicate name is accepted. On every registry, `Register(x, A)` makes
`Lookup(x)` return `(A, true)`; a second `Register(x, B)` is not refused: it
makes `Lookup(x)` return `(B, true)`. `Register(x, A)` twice leaves the state
of one `Register(x, A)`, and `Register(x, A)` then `Register(x, B)` leaves the
state of `Register(x, B)` alone. Likewise `RegisterPlugin(x, A)` puts `A` in
the plugin slot of `x`, a second `RegisterPlugin(x, B)` puts `B` there, which
`Lookup(x)` returns unless `x` has a builtin, and the same two state equations
hold. Both operations yield the new registry state and nothing else: they
have no error result. -/
theorem C4_registration_idempotent_last_writer_wins {β : Type} (r : Registry β)
    (x : String) (A B : Factory β) :
    (r.Register x A).Register x A = r.Register x A ∧
    (r.Register x A).Register x B = r.Register x B ∧
    (r.RegisterPlugin x A).RegisterPlugin x A = r.RegisterPlugin x A ∧
    (r.RegisterPlugin x A).RegisterPlugin x B = r.RegisterPlugin x B ∧
    (r.Register x A).Lookup x = (A, true) ∧
    ((r.Register x A).Register x B).Lookup x = (B, true) ∧
    (r.Register x A).operators x = some A ∧
    ((r.Register x A).Register x B).operators x = some B ∧
    (r.RegisterPlugin x A).plugins x = some A ∧
    ((r.RegisterPlugin x A).RegisterPlugin x B).plugins x = some B ∧
    (r.RegisterPlugin x A).Lookup x
      = (match r.operators x with
         | some b => (b, true)
         | none => (A, true)) ∧
    ((r.RegisterPlugin x A).RegisterPlugin x B).Lookup x
      = (match r.operators x with
         | some b => (b, true)
         | none => (B, true)) := by
  have hset : ∀ (m : GoMap (Factory β)) (u v : Factory β),
      (m.set x u).set x v = m.set x v := by
    intro m u v
    funext k
    by_cases hk : k = x <;> simp [GoMap.set, hk]
  have hget : ∀ (m : GoMap (Factory β)) (u : Factory β), (m.set x u) x = some u := by
    intro m u
    simp [GoMap.set]
  refine ⟨?_, ?_, ?_, ?_, ?_, ?_, ?_, ?_, ?_, ?_, ?_, ?_⟩
  · simp [Registry.Register, hset]
  · simp [Registry.Register, hset]
  · simp [Registry.RegisterPlugin, hset]
  · simp [Registry.RegisterPlugin, hset]
  · simp [Registry.Lookup, Registry.Register, hget]
  · simp [Registry.Lookup, Registry.Register, hget]
  · simp [Registry.Register, hget]
  · simp [Registry.Register, hget]
  · simp [Registry.RegisterPlugin, hget]
  · simp [Registry.RegisterPlugin, hget]
  · cases ho : r.operators x <;>
      simp [Registry.Lookup, Registry.RegisterPlugin, hget, ho]
  · cases ho : r.operators x <;>
      simp [Registry.Lookup, Registry.RegisterPlugin, hget, ho]

end operator

namespace helper

/-- C5: `NewEntry(value)` runs `Set(WriteTo, value)`, `Label` and `Identify` in
that order on a fresh entry. With `o1`, `o2`, `o3` the errors of the three
steps run in sequence: if a step fails the result is a nil entry with that
step's error wrapped with the step's message, and the program state is the one
the failing step left, so no later step has run; if all three succeed the
result is the entry they produced, with a nil error; and the returned error is
nil exactly when all three steps succeed. -/
theorem C5_NewEntry_steps_in_order {E F V Err W L I Wr : Type}
    (ops : EntryOps E F V Err W L I) (i : InputOperator L I Wr F) (value : V) (w : W)
    (e0 e1 e2 e3 : E) (w0 w1 w2 w3 : W) (o1 o2 o3 : Option Err)
    (h0 : ops.New w = (e0, w0))
    (h1 : ops.Set e0 i.WriteTo value w0 = (o1, e1, w1))
    (h2 : ops.Label i.Labeler e1 w1 = (o2, e2, w2))
    (h3 : ops.Identify i.Identifier e2 w2 = (o3, e3, w3)) :
    (∀ err, o1 = some err →
      i.NewEntry ops value w = ((none, some (ops.Wrap err "add record to entry")), w1)) ∧
    (o1 = none → ∀ err, o2 = some err →
      i.NewEntry ops value w = ((none, some (ops.Wrap err "add labels to entry")), w2)) ∧
    (o1 = none → o2 = none → ∀ err, o3 = some err →
      i.NewEntry ops value w
        = ((none, some (ops.Wrap err "add resource keys to entry")), w3)) ∧
    (o1 = none → o2 = none → o3 = none →
      i.NewEntry ops value w = ((some e3, none), w3)) ∧
    ((i.NewEntry ops value w).1.2 = none ↔ (o1 = none ∧ o2 = none ∧ o3 = none)) := by
  cases o1 with
  | some a => simp [InputOperator.NewEntry, h0, h1]
  | none =>
    cases o2 with
    | some a => simp [InputOperator.NewEntry, h0, h1, h2]
    | none =>
      cases o3 with
      | some a => simp [InputOperator.NewEntry, h0, h1, h2, h3]
      | none => simp [InputOperator.NewEntry, h0, h1, h2, h3]

/-- Witness of C5: `Set` succeeds, `Label` fails, `Identify` is not reached. -/
theorem C5_NewEntry_steps_in_order_witness :
    InputOperator.NewEntry sampleEntryOps
        ({ Labeler := false, Identifier := true, WriterOperator := (), WriteTo := "msg" } :
          InputOperator Bool Bool Unit String) "hello" []
      = ((none, some "add labels to entry: bad label"), ["New", "Set", "Label"]) :=
  (C5_NewEntry_steps_in_order sampleEntryOps
    ({ Labeler := false, Identifier := true, WriterOperator := (), WriteTo := "msg" } :
      InputOperator Bool Bool Unit String) "hello" []
    [] ["msg=hello"] ["msg=hello", "labels"] ["msg=hello", "labels", "resource"]
    ["New"] ["New", "Set"] ["New", "Set", "Label"] ["New", "Set", "Label", "Identify"]
    none (some "bad label") none rfl rfl rfl rfl).2.1 rfl "bad label" rfl

/-- C6: for every input operator `CanProcess()` is false, and for every
context and entry `Process(ctx, entry)` returns a non-nil error and leaves the
entry as it was. -/
theorem C6_input_cannot_process {L I Wr F E Err W Ctx : Type}
    (ops : ErrorOps Wr E Err W) (i : InputOperator L I Wr F) (ctx : Ctx) (entry : E)
    (w : W) :
    i.CanProcess = false ∧
    (i.Process ops ctx entry w).1 ≠ none ∧
    (i.Process ops ctx entry w).2.1 = entry := by
  refine ⟨rfl, ?_, rfl⟩
  simp [InputOperator.Process]

/-- C7: for every output operator, also after any number of `SetOutputs`
calls, `CanOutput()` is false, `Outputs()` is the empty list and
`CanProcess()` is true. -/
theorem C7_output_capabilities {B Op Err : Type} (NewError : String → String → Err)
    (o : OutputOperator B) (calls : List (List Op)) :
    (o.afterSetOutputs NewError calls).CanOutput = false ∧
    (o.afterSetOutputs NewError calls).Outputs Op = [] ∧
    (o.afterSetOutputs NewError calls).CanProcess = true ∧
    o.CanOutput = false ∧ o.Outputs Op = [] ∧ o.CanProcess = true :=
  ⟨rfl, rfl, rfl, rfl, rfl, rfl⟩

/-- C8: `SetOutputs` returns a non-nil error for every list of operators, the
empty list included, and leaves the operator unchanged, so `Outputs()` is
still empty afterwards. -/
theorem C8_SetOutputs_always_errors {B Op Err : Type} (NewError : String → String → Err)
    (o : OutputOperator B) (operators : List Op) :
    (o.SetOutputs NewError operators).1 ≠ none ∧
    (o.SetOutputs NewError operators).2 = o ∧
    ((o.SetOutputs NewError operators).2).Outputs Op = [] ∧
    (o.SetOutputs NewError ([] : List Op)).1 ≠ none := by
  refine ⟨?_, rfl, rfl, ?_⟩ <;> simp [OutputOperator.SetOutputs]

/-- C9: `InputConfig.Build` runs the writer, labeler and identifier sub-builds
in that order. With `o1`, `o2`, `o3` the errors of the three sub-builds run in
sequence: if one fails, the result is that error with the detail
"operator_id" set to the configuration's ID, and the program state is the one
the failing sub-build left, so no later sub-build was attempted; if all three
succeed the result is the operator holding the three built parts and the
configuration's `WriteTo`, with a nil error; and the returned error is non-nil
exactly when some sub-build fails. -/
theorem C9_InputConfig_Build {LC IC WC L I Wr F Err Ctx W : Type}
    [Inhabited L] [Inhabited I] [Inhabited Wr] [Inhabited F]
    (ops : BuildOps LC IC WC L I Wr Err Ctx W) (c : InputConfig LC IC WC F)
    (context : Ctx) (w w1 w2 w3 : W) (wr : Wr) (l : L) (iden : I)
    (o1 o2 o3 : Option Err)
    (h1 : ops.WriterBuild c.WriterConfig context w = ((wr, o1), w1))
    (h2 : ops.LabelerBuild c.LabelerConfig w1 = ((l, o2), w2))
    (h3 : ops.IdentifierBuild c.IdentifierConfig w2 = ((iden, o3), w3)) :
    (∀ err, o1 = some err →
      c.Build ops context w
        = ((InputOperator.zero,
            some (ops.WithDetails err "operator_id" (ops.ID c.WriterConfig))), w1)) ∧
    (o1 = none → ∀ err, o2 = some err →
      c.Build ops context w
        = ((InputOperator.zero,
            some (ops.WithDetails err "operator_id" (ops.ID c.WriterConfig))), w2)) ∧
    (o1 = none → o2 = none → ∀ err, o3 = some err →
      c.Build ops context w
        = ((InputOperator.zero,
            some (ops.WithDetails err "operator_id" (ops.ID c.WriterConfig))), w3)) ∧
    (o1 = none → o2 = none → o3 = none →
      c.Build ops context w
        = (({ Labeler := l, Identifier := iden, WriterOperator := wr,
              WriteTo := c.WriteTo }, none), w3)) ∧
    ((c.Build ops context w).1.2 ≠ none ↔ (o1 ≠ none ∨ o2 ≠ none ∨ o3 ≠ none)) := by
  cases o1 with
  | some a => simp [InputConfig.Build, h1]
  | none =>
    cases o2 with
    | some a => simp [InputConfig.Build, h1, h2]
    | none =>
      cases o3 with
      | some a => simp [InputConfig.Build, h1, h2, h3]
      | none => simp [InputConfig.Build, h1, h2, h3]

/-- Witness of C9: the writer is built, the labeler sub-build fails, the
identifier sub-build is not attempted. -/
theorem C9_InputConfig_Build_witness :
    InputConfig.Build sampleBuildOps
        ({ LabelerConfig := 0, IdentifierConfig := 5, WriterConfig := ("my_input", 3),
           WriteTo := "msg" } : InputConfig Nat Nat (String × Nat) String) () []
      = ((InputOperator.zero,
          some ("bad label expression", [("operator_id", "my_input")])),
         ["writer", "labeler"]) :=
  (C9_InputConfig_Build sampleBuildOps
    ({ LabelerConfig := 0, IdentifierConfig := 5, WriterConfig := ("my_input", 3),
       WriteTo := "msg" } : InputConfig Nat Nat (String × Nat) String) () []
    ["writer"] ["writer", "labeler"] ["writer", "labeler", "identifier"]
    3 0 5 none (some ("bad label expression", [])) none rfl rfl rfl).2.1 rfl
    ("bad label expression", []) rfl

end helper

namespace windows

section BufferLemmas

/-- Writing one element at index `i` turns the first `i + 1` elements into the
first `i` followed by the written one. -/
theorem take_succ_set (buf : List Nat) (i b : Nat) (h : i < buf.length) :
    (buf.set i b).take (i + 1) = buf.take i ++ [b] := by
  induction buf generalizing i with
  | nil => simp at h
  | cons a buf ih =>
    cases i with
    | zero => simp
    | succ j =>
      have hj : j < buf.length := by simpa using h
      simp [ih j hj]

/-- When the bytes fit, the copy loop succeeds and the storage starts with
what was there before index `i`, followed by the copied bytes. -/
theorem storeBytes_fits (src : List Nat) :
    ∀ (buf : List Nat) (i : Nat), i + src.length ≤ buf.length →
      ∃ r, storeBytes buf i src = some r ∧ r.take (i + src.length) = buf.take i ++ src := by
  induction src with
  | nil =>
    intro buf i _
    exact ⟨buf, rfl, by simp⟩
  | cons b rest ih =>
    intro buf i h
    have hlen : i + (rest.length + 1) ≤ buf.length := by simpa using h
    have hi : i < buf.length := by omega
    have hfit : (i + 1) + rest.length ≤ (buf.set i b).length := by
      rw [List.length_set]
      omega
    obtain ⟨r, hr, htake⟩ := ih (buf.set i b) (i + 1) hfit
    refine ⟨r, ?_, ?_⟩
    · simp [storeBytes, hi, hr]
    · have hidx : i + (b :: rest).length = (i + 1) + rest.length := by
        simp only [List.length_cons]
        omega
      rw [hidx, htake, take_succ_set buf i b hi]
      simp

/-- When the bytes do not fit, the copy loop runs out of the storage. -/
theorem storeBytes_overflow (src : List Nat) :
    ∀ (buf : List Nat) (i : Nat), i ≤ buf.length → buf.length < i + src.length →
      storeBytes buf i src = none := by
  induction src with
  | nil =>
    intro buf i hle h
    simp only [List.length_nil] at h
    omega
  | cons b rest ih =>
    intro buf i hle h
    have hlen : buf.length < i + (rest.length + 1) := by simpa using h
    by_cases hi : i < buf.length
    · have hle2 : i + 1 ≤ (buf.set i b).length := by
        rw [List.length_set]
        omega
      have hover : (buf.set i b).length < (i + 1) + rest.length := by
        rw [List.length_set]
        omega
      simp [storeBytes, hi, ih (buf.set i b) (i + 1) hle2 hover]
    · simp [storeBytes, hi]

/-- Grouping the bytes of a list of code units gives the code units back. -/
theorem utf16Units_unitBytesLE (us : List Nat) :
    utf16Units (us.flatMap unitBytesLE) = Except.ok us := by
  induction us with
  | nil => rfl
  | cons u us ih =>
    have hu : u % 256 + 256 * (u / 256) = u := Nat.mod_add_div u 256
    simp only [List.flatMap_cons, unitBytesLE, List.cons_append, List.nil_append]
    simp only [unitBytesLE] at ih
    simp [utf16Units, ih, hu]

/-- The code point of a character is a Unicode scalar value. -/
theorem char_toNat_scalar (c : Char) :
    c.toNat < 0xD800 ∨ (0xDFFF < c.toNat ∧ c.toNat < 0x110000) :=
  c.valid

/-- Decoding the code units of a text gives its code points. -/
theorem decodeUnits_encode (cs : List Char) :
    decodeUnits none (cs.flatMap (fun c => utf16EncodeCodePoint c.toNat))
      = Except.ok (cs.map Char.toNat) := by
  induction cs with
  | nil => rfl
  | cons c cs ih =>
    have hv := char_toNat_scalar c
    simp only [List.flatMap_cons, List.map_cons]
    by_cases hsmall : c.toNat < 0x10000
    · have h1 : ¬ (0xD800 ≤ c.toNat ∧ c.toNat < 0xDC00) := by omega
      have h2 : ¬ (0xDC00 ≤ c.toNat ∧ c.toNat < 0xE000) := by omega
      have henc : utf16EncodeCodePoint c.toNat = [c.toNat] := by
        simp [utf16EncodeCodePoint, hsmall]
      rw [henc]
      show decodeUnits none
        (c.toNat :: cs.flatMap (fun c => utf16EncodeCodePoint c.toNat)) = _
      rw [decodeUnits, if_neg h1, if_neg h2, ih]
    · obtain ⟨q, hq⟩ : ∃ q, q = (c.toNat - 0x10000) / 0x400 := ⟨_, rfl⟩
      obtain ⟨r, hr⟩ : ∃ r, r = (c.toNat - 0x10000) % 0x400 := ⟨_, rfl⟩
      have henc : utf16EncodeCodePoint c.toNat = [0xD800 + q, 0xDC00 + r] := by
        simp [utf16EncodeCodePoint, hsmall, hq, hr]
      have hhi : 0xD800 ≤ 0xD800 + q ∧ 0xD800 + q < 0xDC00 := by omega
      have hlo : 0xDC00 ≤ 0xDC00 + r ∧ 0xDC00 + r < 0xE000 := by omega
      have hback : 0x10000 + (0xD800 + q - 0xD800) * 0x400 + (0xDC00 + r - 0xDC00)
          = c.toNat := by omega
      rw [henc]
      show decodeUnits none
        ((0xD800 + q) :: (0xDC00 + r) ::
          cs.flatMap (fun c => utf16EncodeCodePoint c.toNat)) = _
      rw [decodeUnits, if_pos hhi, decodeUnits, if_pos hlo, ih, hback]

/-- The encoded bytes are the bytes of the byte-order mark followed by the
code units of the text. -/
theorem encodeUTF16LEWithBOM_units (T : String) :
    encodeUTF16LEWithBOM T
      = (0xFEFF :: T.data.flatMap (fun c => utf16EncodeCodePoint c.toNat)).flatMap
          unitBytesLE := by
  have hassoc : ∀ cs : List Char,
      cs.flatMap (fun c => (utf16EncodeCodePoint c.toNat).flatMap unitBytesLE)
        = (cs.flatMap (fun c => utf16EncodeCodePoint c.toNat)).flatMap unitBytesLE := by
    intro cs
    induction cs with
    | nil => rfl
    | cons c cs ih => simp [List.flatMap_cons, List.flatMap_append, ih]
  unfold encodeUTF16LEWithBOM
  rw [hassoc, List.flatMap_cons]
  rfl

/-- Decoding the encoding of a text gives its code points. -/
theorem decodeUTF16LE_encode (T : String) :
    decodeUTF16LE (encodeUTF16LEWithBOM T) = Except.ok (T.data.map Char.toNat) := by
  unfold decodeUTF16LE
  rw [encodeUTF16LEWithBOM_units, utf16Units_unitBytesLE]
  simp only [stripBOM, if_true]
  exact decodeUnits_encode T.data

/-- The characters of the code points of a text are the text. -/
theorem string_of_codePoints (T : String) :
    String.mk ((T.data.map Char.toNat).map Char.ofNat) = T := by
  have hid : ∀ cs : List Char, (cs.map Char.toNat).map Char.ofNat = cs := by
    intro cs
    induction cs with
    | nil => rfl
    | cons c cs ih => simp [ih, Char.ofNat_toNat]
  rw [hid]

/-- The UTF-8 bytes of the code points of a text are the UTF-8 bytes of the
text. -/
theorem utf8_of_codePoints (T : String) :
    (T.data.map Char.toNat).flatMap utf8EncodeCodePoint = utf8Bytes T := by
  unfold utf8Bytes
  induction T.data with
  | nil => rfl
  | cons c cs ih => simp [List.flatMap_cons, ih]

/-- The length of the encoding: two bytes of byte-order mark and at least two
bytes for every character. -/
theorem encodeUTF16LEWithBOM_length_replicate (n : Nat) :
    (encodeUTF16LEWithBOM (String.mk (List.replicate n 'a'))).length = 2 + 2 * n := by
  unfold encodeUTF16LEWithBOM
  induction n with
  | zero => rfl
  | succ k ih =>
    simp only [List.replicate_succ, List.flatMap_cons, List.length_append,
      List.length_cons, List.length_nil] at ih ⊢
    have hk : ((utf16EncodeCodePoint 'a'.toNat).flatMap unitBytesLE).length = 2 := by rfl
    rw [hk]
    omega

end BufferLemmas

end windows

namespace windows

/-- C10, as stated, fails: whatever the default capacity is, some text has an
encoding longer than the fresh buffer, and the copy of its encoded bytes into
the buffer runs past the end of the storage, so no `ReadBytes` or `ReadString`
result exists for it. The text of `defaultBufferSize` letters "a" is one. -/
theorem C10_roundtrip_every_text_counterexample :
    ¬ ∃ defaultBufferSize : Nat, ∀ T : String,
      TestBufferReadBytes defaultBufferSize T = some (Except.ok (utf8Bytes T)) ∧
      TestBufferReadString defaultBufferSize T = some (Except.ok T) := by
  rintro ⟨d, h⟩
  have hlen := encodeUTF16LEWithBOM_length_replicate d
  have hnone : storeBytes (NewBuffer d).buffer 0
      (encodeUTF16LEWithBOM (String.mk (List.replicate d 'a'))) = none := by
    apply storeBytes_overflow
    · exact Nat.zero_le _
    · simp only [NewBuffer, List.length_replicate]
      omega
  have hbytes := (h (String.mk (List.replicate d 'a'))).1
  simp [TestBufferReadBytes, hnone] at hbytes

/-- C10, amended: for every text whose UTF-16LE encoding with byte-order mark
is no longer than the default capacity (a capacity that fits a `uint32`),
copying the encoded bytes into the start of a `NewBuffer()` buffer succeeds,
`ReadBytes(encodedLength)` returns no error and exactly the UTF-8 bytes of the
text, and `ReadString(encodedLength)` returns the text itself. -/
theorem C10_roundtrip_when_encoding_fits (defaultBufferSize : Nat) (T : String)
    (hsize : defaultBufferSize < 2 ^ 32)
    (hfit : (encodeUTF16LEWithBOM T).length ≤ defaultBufferSize) :
    TestBufferReadBytes defaultBufferSize T = some (Except.ok (utf8Bytes T)) ∧
    TestBufferReadString defaultBufferSize T = some (Except.ok T) := by
  have hroom : 0 + (encodeUTF16LEWithBOM T).length ≤ (NewBuffer defaultBufferSize).buffer.length := by
    simp only [NewBuffer, List.length_replicate]
    omega
  obtain ⟨r, hr, htake⟩ := storeBytes_fits (encodeUTF16LEWithBOM T) _ 0 hroom
  have hoff : toUint32 (encodeUTF16LEWithBOM T).length = (encodeUTF16LEWithBOM T).length := by
    unfold toUint32
    exact Nat.mod_eq_of_lt (by omega)
  have hhead : r.take (encodeUTF16LEWithBOM T).length = encodeUTF16LEWithBOM T := by
    simpa using htake
  constructor
  · simp only [TestBufferReadBytes, hr, hoff, Buffer.ReadBytes, hhead,
      decodeUTF16LE_encode, utf8_of_codePoints]
  · simp only [TestBufferReadString, hr, hoff, Buffer.ReadString, hhead,
      decodeUTF16LE_encode, string_of_codePoints]

/-- Witness of C10, amended: the text "test" of the tests, in a buffer of
sixteen bytes. -/
theorem C10_roundtrip_when_encoding_fits_witness :
    TestBufferReadBytes 16 "test" = some (Except.ok [116, 101, 115, 116]) ∧
    TestBufferReadString 16 "test" = some (Except.ok "test") :=
  C10_roundtrip_when_encoding_fits 16 "test" (by decide) (by decide)

end windows

namespace windows

/-- C11: `NewBuffer().Size()` equals the default capacity constant, and for
every buffer and every `n` (in particular every `n` from 1 on, as `n = 1` of
the test), after `UpdateSize(n)` the length of the underlying storage and
`Size()` both equal `n`. The capacities are `uint32` values, as `Size()` is. -/
theorem C11_buffer_sizing (defaultBufferSize : Nat) (b : Buffer) (n : Nat)
    (hdefault : defaultBufferSize < 2 ^ 32) (hn : n < 2 ^ 32) :
    (NewBuffer defaultBufferSize).Size = defaultBufferSize ∧
    (b.UpdateSize n).buffer.length = n ∧
    (b.UpdateSize n).Size = n := by
  have hlen : (b.UpdateSize n).buffer.length = n := by
    simp only [Buffer.UpdateSize, List.length_append, List.length_take,
      List.length_replicate]
    omega
  refine ⟨?_, hlen, ?_⟩
  · simp only [Buffer.Size, NewBuffer, List.length_replicate, toUint32]
    exact Nat.mod_eq_of_lt hdefault
  · simp only [Buffer.Size, hlen, toUint32]
    exact Nat.mod_eq_of_lt hn

/-- Witness of C11: a buffer of sixteen bytes resized to one byte, as in
`TestBufferUpdateSize`. -/
theorem C11_buffer_sizing_witness :
    (NewBuffer 16).Size = 16 ∧
    ((NewBuffer 16).UpdateSize 1).buffer.length = 1 ∧
    ((NewBuffer 16).UpdateSize 1).Size = 1 :=
  C11_buffer_sizing 16 (NewBuffer 16) 1 (by decide) (by decide)

end windows

namespace helper

/-- C12: a parser's `Build` succeeds only if `on_error` is unset, "send" or
"drop"; for any other configured string it fails with an error whose text
contains "invalid `on_error` field". -/
theorem C12_on_error_validation {Op : Type} (c : ParserConfig)
    (rest : Except ConfigError Op) :
    (∀ op, c.Build rest = Except.ok op →
      c.OnError = none ∨ c.OnError = some "send" ∨ c.OnError = some "drop") ∧
    (∀ s, c.OnError = some s → s ≠ "send" → s ≠ "drop" →
      ∃ e, c.Build rest = Except.error e ∧ Contains e.Error "invalid `on_error` field") := by
  constructor
  · intro op hok
    cases hc : c.OnError with
    | none => exact Or.inl rfl
    | some s =>
      right
      by_cases hs : s = "send"
      · exact Or.inl (by rw [hs])
      · by_cases hd : s = "drop"
        · exact Or.inr (by rw [hd])
        · have hinvalid : validOnError (some s) = false := by
            simp [validOnError, hs, hd]
          simp [ParserConfig.Build, hc, hinvalid] at hok
  · intro s hc hs hd
    have hinvalid : validOnError (some s) = false := by
      simp [validOnError, hs, hd]
    refine ⟨InvalidOnError c.OperatorID, ?_, ?_⟩
    · simp [ParserConfig.Build, hc, hinvalid]
    · exact List.infix_refl _

/-- Witness of C12: the configuration of `TestCSVParserBuildFailure`. -/
theorem C12_on_error_validation_witness :
    ∃ e, ParserConfig.Build
          ({ OperatorID := "test", OnError := some "invalid_on_error" } : ParserConfig)
          (Except.ok () : Except ConfigError Unit) = Except.error e ∧
      Contains e.Error "invalid `on_error` field" :=
  (C12_on_error_validation
    ({ OperatorID := "test", OnError := some "invalid_on_error" } : ParserConfig)
    (Except.ok () : Except ConfigError Unit)).2 "invalid_on_error" rfl
    (by decide) (by decide)

/-- C13, as stated, fails: with an error constructor that keeps the description
it is given, the error returned by `Process` has the description "Operator can
not process logs.", which is not "operator cannot process incoming entries". -/
theorem C13_process_error_message_counterexample :
    (InputOperator.Process sampleErrorOps
        ({ Labeler := (), Identifier := (), WriterOperator := (), WriteTo := () } :
          InputOperator Unit Unit Unit Unit) () "entry" []).1
      = some ("Operator can not process logs.",
          "Ensure that operator is not configured to receive logs from other operators") ∧
    ((InputOperator.Process sampleErrorOps
        ({ Labeler := (), Identifier := (), WriterOperator := (), WriteTo := () } :
          InputOperator Unit Unit Unit Unit) () "entry" []).1).map Prod.fst
      ≠ some "operator cannot process incoming entries" := by
  refine ⟨rfl, ?_⟩
  simp [InputOperator.Process, sampleErrorOps]

/-- C13, amended: for every context and every entry, the error returned by an
input operator's `Process` is the one built by `errors.NewError` with the
description "Operator can not process logs." and the suggestion "Ensure that
operator is not configured to receive logs from other operators". -/
theorem C13_process_error_is_NewError {L I Wr F E Err W Ctx : Type}
    (ops : ErrorOps Wr E Err W) (i : InputOperator L I Wr F) (ctx : Ctx) (entry : E)
    (w : W) :
    (i.Process ops ctx entry w).1
      = some (ops.NewError "Operator can not process logs."
          "Ensure that operator is not configured to receive logs from other operators") :=
  rfl

end helper

namespace operator

/-- C14: the two namespaces are independent and registration is local to one
name. For `y` different from `x`, `Register(x, F)` leaves the plugin map and
`Lookup(y)` unchanged, `RegisterPlugin(x, F)` leaves the builtin map and
`Lookup(y)` unchanged; a `Lookup` call leaves the registry as it was, so a
second `Lookup` of the same name returns what the first returned. -/
theorem C14_registry_frame {β : Type} (r : Registry β) (x y : String) (F : Factory β)
    (hxy : y ≠ x) :
    (r.Register x F).plugins = r.plugins ∧
    (r.Register x F).Lookup y = r.Lookup y ∧
    (r.RegisterPlugin x F).operators = r.operators ∧
    (r.RegisterPlugin x F).Lookup y = r.Lookup y ∧
    (r.LookupCall x).2 = r ∧
    ((r.LookupCall x).2.LookupCall x).1 = (r.LookupCall x).1 := by
  refine ⟨rfl, ?_, rfl, ?_, rfl, rfl⟩
  · simp [Registry.Lookup, Registry.Register, GoMap.set, hxy]
  · simp [Registry.Lookup, Registry.RegisterPlugin, GoMap.set, hxy]

/-- Witness of C14: registering "x" on a registry that holds a builtin "x" and
a plugin "y". -/
theorem C14_registry_frame_witness :
    ((run [Call.register "x" (some 1), Call.registerPlugin "y" (some 2)]).Register
        "x" (some 3)).Lookup "y" = ((some 2 : Factory Nat), true) :=
  ((C14_registry_frame
    (run [Call.register "x" (some 1), Call.registerPlugin "y" (some 2)])
    "x" "y" (some 3) (by decide)).2.1).trans rfl

end operator
